import Mathlib

/-!
Shallow embedding of the resilient SQL execution gateway
(src/mssql_mcp_server/server.py) and verification of its specification.

Strings are modelled as lists of characters (`Str`); Python string methods
used by the source (`strip`, `upper`, `lower`, `splitlines`, `split`,
`startswith`, the `in` substring test, `"sep".join`) are defined below,
faithful to Python semantics on the character ranges the program handles.
-/

abbrev Str := List Char

/-- Characters treated as whitespace by Python `str.strip()` on the
character range this program can encounter (`str.isspace`). -/
def pyIsSpace (c : Char) : Bool :=
  c = ' ' || c = '\t' || c = '\n' || c = '\r' || c = '\x0b' || c = '\x0c' ||
  c = '\x1c' || c = '\x1d' || c = '\x1e' || c = '\x1f' || c = '\x85' ||
  c = '\xa0' || c = '\u2028' || c = '\u2029'

/-- Python `str.lstrip()`. -/
def lstrip (s : Str) : Str := s.dropWhile pyIsSpace

/-- Python `str.rstrip()`. -/
def rstrip (s : Str) : Str := (s.reverse.dropWhile pyIsSpace).reverse

/-- Python `str.strip()` with no arguments. -/
def strip (s : Str) : Str := rstrip (lstrip s)

/-- Python `str.upper()` (the program only feeds it ASCII SQL text). -/
def upper (s : Str) : Str := s.map Char.toUpper

/-- Python `str.lower()` (the program only feeds it ASCII host names). -/
def lower (s : Str) : Str := s.map Char.toLower

/-- Python `str.startswith(pre)`. -/
def startsWith (s pre : Str) : Bool := pre.isPrefixOf s

/-- Python substring test `needle in hay`. -/
def containsSub (hay needle : Str) : Bool :=
  match hay with
  | [] => needle.isEmpty
  | _ :: t => needle.isPrefixOf hay || containsSub t needle

/-- Python `str.split(sep)` for a one-character separator. -/
def splitOnChar (c : Char) : Str → List Str
  | [] => [[]]
  | x :: xs =>
    if x = c then [] :: splitOnChar c xs
    else
      match splitOnChar c xs with
      | [] => [[x]]
      | h :: t => (x :: h) :: t

/-- Line-break characters recognised by Python `str.splitlines()`. -/
def isLineBreak (c : Char) : Bool :=
  c = '\n' || c = '\r' || c = '\x0b' || c = '\x0c' ||
  c = '\x1c' || c = '\x1d' || c = '\x1e' || c = '\x85' ||
  c = '\u2028' || c = '\u2029'

/-- Accumulator worker for `splitlines`; the first argument is the current
line collected in reverse. -/
def splitlinesAux : Str → Str → List Str
  | acc, [] => if acc.isEmpty then [] else [acc.reverse]
  | acc, '\r' :: '\n' :: rest => acc.reverse :: splitlinesAux [] rest
  | acc, c :: rest =>
    if isLineBreak c then acc.reverse :: splitlinesAux [] rest
    else splitlinesAux (c :: acc) rest

/-- Python `str.splitlines()` (without keepends). -/
def splitlines (s : Str) : List Str := splitlinesAux [] s

/-- Python `"sep".join(parts)`. -/
def joinWith (sep : Str) (parts : List Str) : Str := List.intercalate sep parts

/-- Kinds of Python exception the program distinguishes by `except` clauses:
`pyodbc.Error`, `ValueError`, `RuntimeError`, and anything else that is
still an `Exception`. -/
inductive ExcKind where
  | pyodbcError
  | valueError
  | runtimeError
  | otherError
deriving DecidableEq

/-- Model of a raised Python exception as the program observes it:
its class (via `except` clauses), `str(e)`, and `str(e.args[0])`
when `e.args` is non-empty (used by `is_transient_error`). -/
structure PyExc where
  kind : ExcKind
  msg : Str
  arg0 : Option Str
deriving DecidableEq

/-- Transient error codes from the source (`TRANSIENT_ERROR_CODES`); a
Python set, modelled as a list since only membership queries are made. -/
def TRANSIENT_ERROR_CODES : List Str :=
  ["40613".data, "40501".data, "40197".data, "10928".data, "10929".data,
   "10053".data, "10054".data, "10060".data, "40143".data]

/-- Source `is_transient_error(e)`: false when `e.args` is empty, else true
iff `"(code)"` occurs in `str(e.args[0])` for some transient code. -/
def is_transient_error (e : PyExc) : Bool :=
  match e.arg0 with
  | none => false
  | some a => TRANSIENT_ERROR_CODES.any (fun code => containsSub a ('(' :: code ++ [')']))

/-- Outcome of the retry wrapper: a returned value, a raised exception, or
the degenerate `raise None` reached only when `max_attempts = 0`. -/
inductive RetryOutcome (α : Type) where
  | ok (a : α)
  | raised (e : PyExc)
  | raisedNone
deriving DecidableEq

/-- Observable trace of one run of the retry wrapper: final outcome, number
of attempts made, and the sequence of back-off sleeps performed. -/
structure RetryTrace (α : Type) where
  outcome : RetryOutcome α
  attempts : Nat
  sleeps : List Nat
deriving DecidableEq

/-- Loop body of `retry_on_transient_error`: `attempt` is the 0-based index
of the current attempt and `remaining` the number of loop iterations left
(`retryRun` starts it at `max_attempts`); a connector is modelled as a
function from the attempt index to its result. -/
def retryAux (f : Nat → Except PyExc α) (maxAttempts initialDelay maxDelay : Nat) :
    Nat → Nat → Option PyExc → RetryTrace α
  | attempt, 0, last =>
    match last with
    | some e => ⟨.raised e, attempt, []⟩
    | none => ⟨.raisedNone, attempt, []⟩
  | attempt, remaining + 1, _last =>
    match f attempt with
    | .ok a => ⟨.ok a, attempt + 1, []⟩
    | .error e =>
      if !is_transient_error e || attempt == maxAttempts - 1 then
        ⟨.raised e, attempt + 1, []⟩
      else
        let r := retryAux f maxAttempts initialDelay maxDelay (attempt + 1) remaining (some e)
        ⟨r.outcome, r.attempts, min (initialDelay * 2 ^ attempt) maxDelay :: r.sleeps⟩

/-- Source `retry_on_transient_error(max_attempts, initial_delay, max_delay)`
applied to a connector (the Python `delay` variable is never reassigned, so
each sleep is `min(initial_delay * 2 ** attempt, max_delay)`). -/
def retryRun (f : Nat → Except PyExc α) (maxAttempts initialDelay maxDelay : Nat) :
    RetryTrace α :=
  retryAux f maxAttempts initialDelay maxDelay 0 maxAttempts none

/-- Retry wrapper with the source default policy `(5, 1, 30)` used by
`get_db_connection`. -/
def retryDefault (f : Nat → Except PyExc α) : RetryTrace α := retryRun f 5 1 30

/-- Environment-variable inputs read by `get_db_config` (`os.getenv`
returns `None` for an unset variable). -/
structure Env where
  driver : Option Str
  host : Option Str
  user : Option Str
  password : Option Str
  database : Option Str
deriving DecidableEq

/-- Python falsiness of an optional string: `None` and `""` are falsy. -/
def falsy : Option Str → Bool
  | none => true
  | some s => s.isEmpty

/-- Resolved configuration dictionary built by `get_db_config`. -/
structure DbConfig where
  driver : Str
  server : Str
  user : Str
  password : Str
  database : Str
deriving DecidableEq

/-- Observable failure of `get_db_config`: the list of missing variable
names assembled for the `logger.error` call, and the message of the
`ValueError` actually raised to the caller. -/
structure ConfigFailure where
  loggedMissing : List Str
  raisedMsg : Str
deriving DecidableEq

/-- Cloud-provider managed-database domain suffix tested by the source. -/
def azureSuffix : Str := ".database.windows.net".data

/-- Fixed tail of the Azure connection string (everything after `PWD=...;`),
verbatim from the source. -/
def azureTail : Str :=
  ("Encrypt=yes;TrustServerCertificate=no;Connection Timeout=30;" ++
   "ApplicationIntent=ReadWrite;MultiSubnetFailover=yes;" ++
   "Column Encryption Setting=Enabled;").data

/-- Azure-branch connection string built by `get_db_config`, one chunk per
f-string line of the source. -/
def azureConnString (driver server database user password : Str) : Str :=
  ("Driver=\x7b".data ++ driver ++ "\x7d;".data) ++
  ("Server=tcp:".data ++ server ++ ",1433;".data) ++
  ("Database=".data ++ database ++ ";".data) ++
  ("UID=".data ++ user ++ ";".data) ++
  ("PWD=".data ++ password ++ ";".data) ++
  azureTail

/-- Standard-branch connection string built by `get_db_config`, one chunk
per f-string line of the source. -/
def stdConnString (driver server database user password : Str) : Str :=
  ("Driver=\x7b".data ++ driver ++ "\x7d;".data) ++
  ("Server=".data ++ server ++ ";".data) ++
  ("Database=".data ++ database ++ ";".data) ++
  ("UID=".data ++ user ++ ";".data) ++
  ("PWD=".data ++ password ++ ";".data)

/-- Source `get_db_config()`: the default driver probe is passed in as
`defaultDriver` (it depends on the platform and on live connection probes,
and no claim constrains it). -/
def get_db_config (defaultDriver : Str) (env : Env) :
    Except ConfigFailure (DbConfig × Str) :=
  let driver := env.driver.getD defaultDriver
  let server := env.host.getD "localhost".data
  if falsy env.user || falsy env.password || falsy env.database then
    .error
      { loggedMissing :=
          (if falsy env.user then ["MSSQL_USER".data] else []) ++
          (if falsy env.password then ["MSSQL_PASSWORD".data] else []) ++
          (if falsy env.database then ["MSSQL_DATABASE".data] else [])
        raisedMsg := "Missing required database configuration".data }
  else
    let user := env.user.getD []
    let password := env.password.getD []
    let database := env.database.getD []
    let cfg : DbConfig := ⟨driver, server, user, password, database⟩
    if containsSub (lower server) azureSuffix then
      .ok (cfg, azureConnString driver server database user password)
    else
      .ok (cfg, stdConnString driver server database user password)

/-- Two dashes, the SQL line-comment introducer tested by the source. -/
def dashDash : Str := ['-', '-']

/-- Comment-stripping from `call_tool`: drop every line whose stripped form
starts with two dashes, rejoin with newlines, strip the result. The cleaned
text is used for command detection. -/
def cleanedQuery (q : Str) : Str :=
  strip (joinWith ['\n']
    ((splitlines q).filter (fun line => !(startsWith (strip line) dashDash))))

/-- Statement splitting from the transaction path:
`[s.strip() for s in cleaned_query.split(';') if s.strip()]`. -/
def pyStatements (cleaned : Str) : List Str :=
  ((splitOnChar ';' cleaned).map strip).filter (fun s => !s.isEmpty)

/-- Test from the transaction loop: `stmt.upper().startswith('BEGIN TRANSACTION')`. -/
def isBeginMarker (s : Str) : Bool := startsWith (upper s) "BEGIN TRANSACTION".data

/-- Test from the transaction loop: `stmt.upper().startswith('COMMIT')`. -/
def isCommitMarker (s : Str) : Bool := startsWith (upper s) "COMMIT".data

/-- Statements of a transaction block that are sent to `cursor.execute`
(both markers are skipped as SQL text). -/
def executableStmts (cleaned : Str) : List Str :=
  (pyStatements cleaned).filter (fun s => !(isBeginMarker s || isCommitMarker s))

/-- Transaction detection from `call_tool`:
`"BEGIN TRANSACTION" in cleaned_query.upper()`. -/
def hasBeginTx (cleaned : Str) : Bool :=
  containsSub (upper cleaned) "BEGIN TRANSACTION".data

/-- Read detection from `call_tool`:
`cleaned_query.strip().upper().startswith("SELECT")`. -/
def isSelectLeading (cleaned : Str) : Bool :=
  startsWith (upper (strip cleaned)) "SELECT".data

/-- Execution strategies distinguished by `call_tool`. -/
inductive QKind where
  | read
  | write
  | txBlock
deriving DecidableEq

/-- Decision structure of `call_tool` for an `execute_sql` query: the
transaction-containment test is applied first, then the leading-SELECT
test, else the query is a single write. -/
def classifyCode (cleaned : Str) : QKind :=
  if hasBeginTx cleaned then .txBlock
  else if isSelectLeading cleaned then .read
  else .write

/-- Tabular serialization from the SELECT path: comma-joined header line,
then one comma-joined line per row (row values already in `str` form). -/
def serializeRows (cols : List Str) (rows : List (List Str)) : Str :=
  joinWith ['\n'] (joinWith [','] cols :: rows.map (fun r => joinWith [','] r))

/-- Advisory-message permission codes checked after a successful execute. -/
def PERMISSION_CODES : List Str :=
  ["229".data, "230".data, "262".data, "297".data, "378".data]

/-- Test from `call_tool`: `any(code in msg_str for code in [...])`,
a plain substring match on the message text. -/
def msgHasPermissionCode (m : Str) : Bool :=
  PERMISSION_CODES.any (fun c => containsSub m c)

/-- Permission phrases checked in the `except Error` handler. -/
def PERMISSION_PHRASES : List Str :=
  ["permission".data, "privilege".data, "access denied".data, "not authorized".data]

/-- Test from the `except Error` handler: some phrase occurs in the lowered
text. -/
def textHasPermissionPhrase (t : Str) : Bool :=
  PERMISSION_PHRASES.any (fun p => containsSub (lower t) p)

/-- Result of one `cursor.execute` call as the program observes it: the new
uncommitted database state, `cursor.messages`, `cursor.description` column
names, the `fetchall` rows (already in `str` form), and `cursor.rowcount`.
On failure the driver reports the exception together with the
`cursor.messages` visible in the handler. -/
structure ExecRes (δ : Type) where
  state : δ
  messages : List Str
  columns : List Str
  rows : List (List Str)
  rowcount : Int

/-- Abstract pyodbc driver: the effect of `cursor.execute` on the pending
(uncommitted) database state. -/
structure Driver (δ : Type) where
  exec : Str → δ → Except (PyExc × List Str) (ExecRes δ)

/-- Transactional database state: the last committed state and the pending
state of the open implicit transaction (pyodbc autocommit is off). -/
structure TxState (δ : Type) where
  committed : δ
  pending : δ
deriving DecidableEq

/-- Commit: the pending state becomes the committed state. This is also the
effect of the pyodbc connection/cursor context managers on a normal exit. -/
def txCommit (st : TxState δ) : TxState δ := ⟨st.pending, st.pending⟩

/-- Rollback: the pending state reverts to the committed state. Closing a
connection without committing discards pending changes the same way. -/
def txRollback (st : TxState δ) : TxState δ := ⟨st.committed, st.committed⟩

/-- Result of the transaction-path statement loop: final state plus the
ordered list of texts passed to `cursor.execute`, or the first raised
exception together with the state and trace at that point. -/
inductive TxRun (δ : Type) where
  | ok (st : TxState δ) (executed : List Str)
  | err (e : PyExc) (st : TxState δ) (executed : List Str)
deriving DecidableEq

/-- Statement loop of the transaction path in `call_tool`: skip
`BEGIN TRANSACTION` markers, call `conn.commit()` on `COMMIT` markers,
execute everything else (the best-effort `fetchall` after each statement
swallows every exception and has no further observable effect). -/
def runTxStatements (d : Driver δ) : List Str → TxState δ → TxRun δ
  | [], st => .ok st []
  | s :: rest, st =>
    if isBeginMarker s then runTxStatements d rest st
    else if isCommitMarker s then runTxStatements d rest (txCommit st)
    else
      match d.exec s st.pending with
      | .error (e, _) => .err e st [s]
      | .ok res =>
        match runTxStatements d rest ⟨st.committed, res.state⟩ with
        | .ok st2 tr => .ok st2 (s :: tr)
        | .err e st2 tr => .err e st2 (s :: tr)

/-- Observable outcome of the `execute_sql` branch of `call_tool`: the text
returned to the protocol layer, the database state after the request
finishes (context managers exited, connection released), and the ordered
list of texts passed to `cursor.execute`. -/
structure SqlResult (δ : Type) where
  text : Str
  final : TxState δ
  executed : List Str

/-- Embedding of the `execute_sql` branch of `call_tool`, including the
treatment an exception escaping this region receives from the surrounding
`except Exception` handler (text `"Error: ..."`, no commit on exit). -/
def runExecuteSql (d : Driver δ) (init : δ) (q : Str) : SqlResult δ :=
  let cleaned := cleanedQuery q
  if hasBeginTx cleaned then
    match runTxStatements d (pyStatements cleaned) ⟨init, init⟩ with
    | .ok st tr => ⟨"Transaction completed successfully".data, txCommit st, tr⟩
    | .err e st tr =>
      if e.kind = .pyodbcError then
        ⟨"Transaction error: ".data ++ e.msg, txCommit (txRollback st), tr⟩
      else
        ⟨"Error: ".data ++ e.msg, txRollback st, tr⟩
  else
    match d.exec q init with
    | .error (e, msgs) =>
      if e.kind = .pyodbcError then
        if textHasPermissionPhrase e.msg || msgs.any (fun m => textHasPermissionPhrase m) then
          ⟨"Permission denied: ".data ++ e.msg, ⟨init, init⟩, [q]⟩
        else
          ⟨"Error: ".data ++ e.msg, ⟨init, init⟩, [q]⟩
      else
        ⟨"Error: ".data ++ e.msg, ⟨init, init⟩, [q]⟩
    | .ok res =>
      match res.messages.find? msgHasPermissionCode with
      | some m => ⟨"Permission denied: ".data ++ m, txCommit ⟨init, res.state⟩, [q]⟩
      | none =>
        if isSelectLeading cleaned then
          ⟨serializeRows res.columns res.rows, txCommit ⟨init, res.state⟩, [q]⟩
        else
          ⟨"Query executed successfully. Rows affected: ".data ++ (toString res.rowcount).data,
           txCommit ⟨res.state, res.state⟩, [q]⟩

/-- Re-raise of a configuration failure as the `ValueError` that
`get_db_config` throws. -/
def toValueError (f : ConfigFailure) : PyExc :=
  ⟨.valueError, f.raisedMsg, some f.raisedMsg⟩

/-- Embedding of `list_resources`: `get_db_config` runs outside the `try`,
so its `ValueError` propagates; the `try` covers connection, catalog query
and fetch (abstracted as `tablesResult`) and catches only `pyodbc.Error`,
returning an empty resource list in that case. -/
def list_resources (defaultDriver : Str) (env : Env)
    (tablesResult : Except PyExc (List Str)) : Except PyExc (List Str) :=
  match get_db_config defaultDriver env with
  | .error f => .error (toValueError f)
  | .ok _ =>
    match tablesResult with
    | .error e => if e.kind = .pyodbcError then .ok [] else .error e
    | .ok tables => .ok (tables.map (fun t => "mssql://".data ++ t ++ "/data".data))

/-- Embedding of `read_resource`: configuration failures propagate, a bad
URI scheme raises `ValueError`, and a `pyodbc.Error` from the query region
(abstracted as `tableData`) is re-raised as
`RuntimeError("Database error: ...")`. -/
def read_resource (defaultDriver : Str) (env : Env) (uri : Str)
    (tableData : Str → Except PyExc (List Str × List (List Str))) : Except PyExc Str :=
  match get_db_config defaultDriver env with
  | .error f => .error (toValueError f)
  | .ok _ =>
    if !startsWith uri "mssql://".data then
      .error ⟨.valueError, "Invalid URI scheme: ".data ++ uri,
              some ("Invalid URI scheme: ".data ++ uri)⟩
    else
      match tableData ((splitOnChar '/' (uri.drop 8)).headD []) with
      | .error e =>
        if e.kind = .pyodbcError then
          .error ⟨.runtimeError, "Database error: ".data ++ e.msg,
                  some ("Database error: ".data ++ e.msg)⟩
        else .error e
      | .ok (cols, rows) => .ok (serializeRows cols rows)

/-- Embedding of `call_tool`: validation, configuration resolution, retried
connection establishment (`connector` gives each attempt's result), then
either the table listing (abstracted as `tablesResult`) or the
`execute_sql` branch. Every failure path ends in a returned text because
the whole body is wrapped in `except Exception`; the `raisedNone` branch
models the `TypeError` produced by `raise None` and is unreachable under
the default five-attempt policy. -/
def call_tool (defaultDriver : Str) (env : Env) (connector : Nat → Except PyExc Unit)
    (d : Driver δ) (init : δ) (name : Str) (queryArg : Option Str)
    (tablesResult : Except PyExc (List Str)) : Str :=
  if !(["execute_sql".data, "list_tables".data].contains name) then
    "Unknown tool: ".data ++ name
  else if name = "execute_sql".data ∧ queryArg = none then
    "Error: Query is required".data
  else
    match get_db_config defaultDriver env with
    | .error f => "Error: ".data ++ f.raisedMsg
    | .ok (cfg, _) =>
      match (retryDefault connector).outcome with
      | .raised e => "Error: ".data ++ e.msg
      | .raisedNone => "Error: exceptions must derive from BaseException".data
      | .ok _ =>
        if name = "list_tables".data then
          match tablesResult with
          | .error e => "Error listing tables: ".data ++ e.msg
          | .ok tables => joinWith ['\n'] (("Tables_in_".data ++ cfg.database) :: tables)
        else
          (runExecuteSql d init (queryArg.getD [])).text

/-- Driver whose every execute succeeds without touching state and reports
fixed columns, rows and rowcount with no advisory messages. -/
def pureDriver (cols : List Str) (rows : List (List Str)) (rc : Int) : Driver Unit :=
  ⟨fun _ _ => .ok ⟨(), [], cols, rows, rc⟩⟩

/-- Helper: a list is an infix of itself followed by anything. -/
theorem infix_here {α : Type} (mid post : List α) : mid <:+: mid ++ post :=
  ⟨[], post, by simp⟩

/-- Helper: prepending preserves the infix relation. -/
theorem infix_there {α : Type} (pre : List α) {mid rest : List α}
    (h : mid <:+: rest) : mid <:+: pre ++ rest := by
  obtain ⟨s, t, rfl⟩ := h
  exact ⟨pre ++ s, t, by simp [List.append_assoc]⟩

/-- Helper: the fixed security tail is an infix of every Azure connection
string. -/
theorem azureTail_within (driver server database user password : Str) :
    azureTail <:+: azureConnString driver server database user password :=
  ⟨("Driver=\x7b".data ++ driver ++ "\x7d;".data) ++
   ("Server=tcp:".data ++ server ++ ",1433;".data) ++
   ("Database=".data ++ database ++ ";".data) ++
   ("UID=".data ++ user ++ ";".data) ++
   ("PWD=".data ++ password ++ ";".data), [],
   by simp [azureConnString, List.append_assoc]⟩

/-- Helper: the tcp server address with its fixed port 1433 is an infix of
every Azure connection string. -/
theorem port_chunk_within (driver server database user password : Str) :
    ("Server=tcp:".data ++ server ++ ",1433;".data) <:+:
      azureConnString driver server database user password :=
  ⟨"Driver=\x7b".data ++ driver ++ "\x7d;".data,
   ("Database=".data ++ database ++ ";".data) ++
   ("UID=".data ++ user ++ ";".data) ++
   ("PWD=".data ++ password ++ ";".data) ++ azureTail,
   by simp [azureConnString, List.append_assoc]⟩

set_option maxRecDepth 8000 in
/-- C1: a configuration whose host contains the cloud-provider suffix
`.database.windows.net` (case-insensitive) resolves to a connection string
that forces encryption on, certificate validation on, connection timeout
30, port 1433 on the tcp server address, ApplicationIntent ReadWrite,
multi-subnet failover, and column-level encryption, for every caller
configuration. -/
theorem azure_host_forces_security (defaultDriver : Str) (env : Env)
    (cfg : DbConfig) (cs : Str)
    (hok : get_db_config defaultDriver env = .ok (cfg, cs))
    (haz : containsSub (lower (env.host.getD "localhost".data)) azureSuffix = true) :
    ("Server=tcp:".data ++ cfg.server ++ ",1433;".data) <:+: cs ∧
    "Encrypt=yes;".data <:+: cs ∧
    "TrustServerCertificate=no;".data <:+: cs ∧
    "Connection Timeout=30;".data <:+: cs ∧
    "ApplicationIntent=ReadWrite;".data <:+: cs ∧
    "MultiSubnetFailover=yes;".data <:+: cs ∧
    "Column Encryption Setting=Enabled;".data <:+: cs := by
  simp only [get_db_config] at hok
  by_cases hcond : (falsy env.user || falsy env.password || falsy env.database) = true
  · rw [if_pos hcond] at hok
    simp at hok
  · rw [if_neg hcond] at hok
    rw [if_pos haz] at hok
    simp only [Except.ok.injEq, Prod.mk.injEq] at hok
    obtain ⟨hcfg, hcs⟩ := hok
    subst hcs
    subst hcfg
    refine ⟨port_chunk_within _ _ _ _ _, ?_, ?_, ?_, ?_, ?_, ?_⟩
    all_goals
      exact (show _ <:+: azureTail by decide).trans (azureTail_within _ _ _ _ _)

/-- Concrete environment with a mixed-case Azure host. -/
def envAzure : Env :=
  ⟨none, some "Myserver.DataBase.Windows.Net".data, some "u".data,
   some "pw".data, some "db".data⟩

/-- Configuration that `get_db_config` resolves from `envAzure`. -/
def cfgAzure : DbConfig :=
  ⟨"SQL Server".data, "Myserver.DataBase.Windows.Net".data, "u".data,
   "pw".data, "db".data⟩

/-- Connection string that `get_db_config` resolves from `envAzure`. -/
def csAzure : Str :=
  azureConnString "SQL Server".data "Myserver.DataBase.Windows.Net".data
    "db".data "u".data "pw".data

set_option maxRecDepth 8000 in
/-- Witness for C1 at a concrete environment whose host carries the cloud
suffix in mixed case. -/
theorem azure_host_forces_security_witness :
    get_db_config "SQL Server".data envAzure = .ok (cfgAzure, csAzure) ∧
    (("Server=tcp:".data ++ cfgAzure.server ++ ",1433;".data) <:+: csAzure ∧
     "Encrypt=yes;".data <:+: csAzure ∧
     "TrustServerCertificate=no;".data <:+: csAzure ∧
     "Connection Timeout=30;".data <:+: csAzure ∧
     "ApplicationIntent=ReadWrite;".data <:+: csAzure ∧
     "MultiSubnetFailover=yes;".data <:+: csAzure ∧
     "Column Encryption Setting=Enabled;".data <:+: csAzure) :=
  ⟨by rfl,
   azure_host_forces_security "SQL Server".data envAzure cfgAzure csAzure
     (by rfl) (by decide)⟩

/-- C2: a connector that fails with a transient-coded error on attempts
0 to 3 and succeeds on attempt 4 makes the default-policy retry wrapper
return success after exactly 5 attempts with back-off sleeps
min(1 * 2 ^ attempt, 30) after each failure, i.e. 1, 2, 4, 8, summing
to 15. -/
theorem retry_transient_four_then_success {α : Type} (f : Nat → Except PyExc α)
    (e : PyExc) (a : α)
    (hfail : ∀ i, i < 4 → f i = .error e)
    (hok : f 4 = .ok a)
    (htrans : is_transient_error e = true) :
    retryDefault f = ⟨.ok a, 5, [1, 2, 4, 8]⟩ ∧
    (retryDefault f).sleeps.sum = 15 := by
  have h0 := hfail 0 (by omega)
  have h1 := hfail 1 (by omega)
  have h2 := hfail 2 (by omega)
  have h3 := hfail 3 (by omega)
  have h : retryDefault f = ⟨.ok a, 5, [1, 2, 4, 8]⟩ := by
    simp [retryDefault, retryRun, retryAux, h0, h1, h2, h3, hok, htrans]
  exact ⟨h, by rw [h]; simp⟩

/-- Transient-coded connection failure used by the C2 witness. -/
def eTransient : PyExc :=
  ⟨.pyodbcError, "connection failed".data, some "(40613) database unavailable".data⟩

/-- Connector that fails four times with a transient code, then succeeds. -/
def fFourFailures : Nat → Except PyExc Nat :=
  fun i => if i < 4 then .error eTransient else .ok 7

/-- Witness for C2 at a concrete connector. -/
theorem retry_transient_four_then_success_witness :
    retryDefault fFourFailures = ⟨.ok 7, 5, [1, 2, 4, 8]⟩ ∧
    (retryDefault fFourFailures).sleeps.sum = 15 :=
  retry_transient_four_then_success fFourFailures eTransient 7
    (fun _ hi => if_pos hi) (if_neg (by omega)) (by decide)

/-- C3: a connector that always fails with an error carrying no
parenthesized transient code makes the retry wrapper (for any policy with
at least one attempt) re-raise after exactly 1 attempt, with no sleep. -/
theorem retry_nontransient_single_attempt {α : Type} (f : Nat → Except PyExc α)
    (e : PyExc) (maxAttempts initialDelay maxDelay : Nat)
    (hpos : 1 ≤ maxAttempts)
    (hfail : ∀ i, f i = .error e)
    (hnt : is_transient_error e = false) :
    retryRun f maxAttempts initialDelay maxDelay = ⟨.raised e, 1, []⟩ := by
  obtain ⟨k, rfl⟩ : ∃ k, maxAttempts = k + 1 := ⟨maxAttempts - 1, by omega⟩
  simp [retryRun, retryAux, hfail 0, hnt]

/-- Permanent failure used by the C3 witness: its text has no
parenthesized transient code. -/
def ePermanent : PyExc :=
  ⟨.pyodbcError, "login failed for user".data, some "login failed for user".data⟩

/-- Witness for C3 under the default policy. -/
theorem retry_nontransient_single_attempt_witness :
    retryRun (fun _ => (.error ePermanent : Except PyExc Nat)) 5 1 30 =
      ⟨.raised ePermanent, 1, []⟩ :=
  retry_nontransient_single_attempt _ ePermanent 5 1 30 (by omega)
    (fun _ => rfl) (by decide)

/-- Environment with the user variable unset, all else present. -/
def envMissingUser : Env :=
  ⟨none, some "localhost".data, none, some "pw".data, some "db".data⟩

/-- Counterexample for C7: resolution with a missing user fails, the
missing field is recorded for the log, but the message of the raised
`ValueError` — the failure delivered to the caller — is a fixed text that
does not name the missing field. -/
theorem config_failure_message_counterexample :
    get_db_config "SQL Server".data envMissingUser =
      .error ⟨["MSSQL_USER".data], "Missing required database configuration".data⟩ ∧
    containsSub "Missing required database configuration".data "MSSQL_USER".data = false :=
  ⟨by rfl, by decide⟩

/-- C7 (amended): when any of user, password or database is absent,
resolution fails before any connection attempt; the complete list of
missing fields is assembled into one combined log diagnostic, while the
exception message delivered to the caller is the fixed text
"Missing required database configuration". -/
theorem config_missing_fields_all_logged (defaultDriver : Str) (env : Env)
    (h : (falsy env.user || falsy env.password || falsy env.database) = true) :
    ∃ f : ConfigFailure,
      get_db_config defaultDriver env = .error f ∧
      (falsy env.user = true → "MSSQL_USER".data ∈ f.loggedMissing) ∧
      (falsy env.password = true → "MSSQL_PASSWORD".data ∈ f.loggedMissing) ∧
      (falsy env.database = true → "MSSQL_DATABASE".data ∈ f.loggedMissing) ∧
      f.raisedMsg = "Missing required database configuration".data := by
  refine ⟨⟨(if falsy env.user then ["MSSQL_USER".data] else []) ++
           (if falsy env.password then ["MSSQL_PASSWORD".data] else []) ++
           (if falsy env.database then ["MSSQL_DATABASE".data] else []),
          "Missing required database configuration".data⟩, ?_, ?_, ?_, ?_, rfl⟩
  · simp only [get_db_config]
    rw [if_pos h]
  · intro hu
    simp [hu]
  · intro hp
    simp [hp]
  · intro hd
    simp [hd]

/-- Environment with both user and password unset. -/
def envMissingUserPw : Env :=
  ⟨none, none, none, none, some "db".data⟩

/-- Witness for the amended C7 at an environment missing two fields. -/
theorem config_missing_fields_all_logged_witness :
    (falsy envMissingUserPw.user || falsy envMissingUserPw.password ||
      falsy envMissingUserPw.database) = true ∧
    (∃ f : ConfigFailure,
      get_db_config "SQL Server".data envMissingUserPw = .error f ∧
      (falsy envMissingUserPw.user = true → "MSSQL_USER".data ∈ f.loggedMissing) ∧
      (falsy envMissingUserPw.password = true → "MSSQL_PASSWORD".data ∈ f.loggedMissing) ∧
      (falsy envMissingUserPw.database = true → "MSSQL_DATABASE".data ∈ f.loggedMissing) ∧
      f.raisedMsg = "Missing required database configuration".data) :=
  ⟨by rfl, config_missing_fields_all_logged "SQL Server".data envMissingUserPw (by rfl)⟩

/-- Modelled from the spec for comparison (C8): truncate a line at the
first occurrence of two dashes. -/
def cutLineComment : Str → Str
  | [] => []
  | '-' :: '-' :: _ => []
  | c :: rest => c :: cutLineComment rest

/-- Modelled from the spec for comparison (C8): the raw query with each
line-comment removed from the two dashes to the end of its line. -/
def stripLineComments_spec (q : Str) : Str :=
  joinWith ['\n'] ((splitlines q).map cutLineComment)

/-- Raw query whose only line carries SQL text followed by a trailing
line-comment. -/
def qTrailingComment : Str := "SELECT 1 ".data ++ dashDash ++ " c".data

/-- Raw query with a whole-line comment above a SELECT. -/
def qLeadingComment : Str := dashDash ++ " comment\nSELECT 1".data

/-- Counterexample for C8: on a line that carries SQL text and then a
trailing comment, the code keeps the whole line (it only drops lines whose
stripped form starts with two dashes), so the cleaned text differs from
the spec-described per-line comment removal. -/
theorem cleaned_keeps_trailing_comment_counterexample :
    cleanedQuery qTrailingComment = qTrailingComment ∧
    stripLineComments_spec qTrailingComment = "SELECT 1 ".data ∧
    qTrailingComment ≠ "SELECT 1 ".data := by
  refine ⟨by rfl, by rfl, by decide⟩

/-- C8 (amended): the cleaned text is the raw query with every line whose
stripped form starts with two dashes removed whole (lines kept are kept
verbatim, so a trailing comment on a code line survives); when no line is
a comment line, cleaning only strips outer whitespace; the example with a
leading comment line is still executed as a Read. -/
theorem cleaning_drops_whole_comment_lines :
    (∀ q : Str, (splitlines q).all (fun l => !(startsWith (strip l) dashDash)) = true →
        cleanedQuery q = strip (joinWith ['\n'] (splitlines q))) ∧
    cleanedQuery qLeadingComment = "SELECT 1".data ∧
    cleanedQuery qTrailingComment = qTrailingComment ∧
    (∀ cols rows rc,
      (runExecuteSql (pureDriver cols rows rc) () qLeadingComment).text =
        serializeRows cols rows) := by
  refine ⟨?_, by rfl, by rfl, ?_⟩
  · intro q h
    unfold cleanedQuery
    rw [List.filter_eq_self.mpr]
    intro a ha
    have := List.all_eq_true.mp h a ha
    simpa using this
  · intro cols rows rc
    have h1 : hasBeginTx (cleanedQuery qLeadingComment) = false := by decide
    have h2 : isSelectLeading (cleanedQuery qLeadingComment) = true := by decide
    simp [runExecuteSql, pureDriver, h1, h2]

/-- Comment-free two-line query used by the C8 witness. -/
def qPlainTwoLines : Str := "SELECT 1\nFROM t".data

/-- Witness for the amended C8 at a comment-free query. -/
theorem cleaning_drops_whole_comment_lines_witness :
    (splitlines qPlainTwoLines).all (fun l => !(startsWith (strip l) dashDash)) = true ∧
    cleanedQuery qPlainTwoLines = strip (joinWith ['\n'] (splitlines qPlainTwoLines)) :=
  ⟨by decide, cleaning_drops_whole_comment_lines.1 qPlainTwoLines (by decide)⟩

/-- Helper: under a driver that always succeeds, the transaction loop ends
in success and executes exactly the non-marker statements in order. -/
theorem runTx_pureDriver (cols : List Str) (rows : List (List Str)) (rc : Int)
    (stmts : List Str) (st : TxState Unit) :
    runTxStatements (pureDriver cols rows rc) stmts st =
      .ok ⟨(), ()⟩ (stmts.filter (fun s => !(isBeginMarker s || isCommitMarker s))) := by
  induction stmts generalizing st with
  | nil => rfl
  | cons s rest ih =>
    by_cases hb : isBeginMarker s = true
    · simp [runTxStatements, hb, ih]
    · by_cases hc : isCommitMarker s = true
      · simp [runTxStatements, hb, hc, ih]
      · have hex : ∀ (t : Str) (u : Unit), (pureDriver cols rows rc).exec t u =
            .ok ⟨(), [], cols, rows, rc⟩ := fun _ _ => rfl
        simp [runTxStatements, hb, hc, hex, ih]

/-- Leading-SELECT query that mentions BEGIN TRANSACTION in its text. -/
def qSelectWithTxPhrase : Str :=
  "SELECT id FROM audit WHERE action = BEGIN TRANSACTION".data

/-- Spec example of a transaction block with two INSERT statements. -/
def qTxExample : Str :=
  "BEGIN TRANSACTION;\nINSERT INTO t VALUES (1);\nINSERT INTO t VALUES (2);\nCOMMIT;".data

set_option maxRecDepth 8000 in
/-- Counterexample for C5: a query whose leading keyword is SELECT but
whose text contains BEGIN TRANSACTION is executed through the transaction
path, not classified Read — the containment test runs first. -/
theorem select_with_tx_phrase_counterexample :
    isSelectLeading (cleanedQuery qSelectWithTxPhrase) = true ∧
    classifyCode (cleanedQuery qSelectWithTxPhrase) = .txBlock ∧
    QKind.txBlock ≠ QKind.read ∧
    (runExecuteSql (pureDriver ["id".data] [["1".data]] 0) () qSelectWithTxPhrase).text =
      "Transaction completed successfully".data ∧
    (runExecuteSql (pureDriver ["id".data] [["1".data]] 0) () qSelectWithTxPhrase).text ≠
      serializeRows ["id".data] [["1".data]] :=
  ⟨by decide, by decide, by decide, by rfl, by decide⟩

/-- C5 (amended): classification checks BEGIN TRANSACTION containment
first (splitting the cleaned text on semicolons, trimming empties,
skipping BEGIN TRANSACTION markers and turning COMMIT markers into commit
calls), then classifies by leading SELECT, else Write; the spec example
yields exactly the two INSERT statements as executable. -/
theorem classification_order_and_split :
    (∀ (q : Str) (cols : List Str) (rows : List (List Str)) (rc : Int),
       hasBeginTx (cleanedQuery q) = true →
       (runExecuteSql (pureDriver cols rows rc) () q).text =
         "Transaction completed successfully".data ∧
       (runExecuteSql (pureDriver cols rows rc) () q).executed =
         executableStmts (cleanedQuery q)) ∧
    (∀ (q : Str) (cols : List Str) (rows : List (List Str)) (rc : Int),
       hasBeginTx (cleanedQuery q) = false →
       isSelectLeading (cleanedQuery q) = true →
       (runExecuteSql (pureDriver cols rows rc) () q).text = serializeRows cols rows ∧
       (runExecuteSql (pureDriver cols rows rc) () q).executed = [q]) ∧
    (∀ (q : Str) (cols : List Str) (rows : List (List Str)) (rc : Int),
       hasBeginTx (cleanedQuery q) = false →
       isSelectLeading (cleanedQuery q) = false →
       (runExecuteSql (pureDriver cols rows rc) () q).text =
         "Query executed successfully. Rows affected: ".data ++ (toString rc).data ∧
       (runExecuteSql (pureDriver cols rows rc) () q).executed = [q]) ∧
    executableStmts (cleanedQuery qTxExample) =
      ["INSERT INTO t VALUES (1)".data, "INSERT INTO t VALUES (2)".data] := by
  refine ⟨?_, ?_, ?_, by decide⟩
  · intro q cols rows rc h
    have hrun := runTx_pureDriver cols rows rc (pyStatements (cleanedQuery q)) ⟨(), ()⟩
    simp [runExecuteSql, h, hrun, executableStmts]
  · intro q cols rows rc h hsel
    have hex : (pureDriver cols rows rc).exec q () = .ok ⟨(), [], cols, rows, rc⟩ := rfl
    simp [runExecuteSql, h, hsel, hex]
  · intro q cols rows rc h hsel
    have hex : (pureDriver cols rows rc).exec q () = .ok ⟨(), [], cols, rows, rc⟩ := rfl
    simp [runExecuteSql, h, hsel, hex]

/-- Witness for the amended C5 at the spec example block. -/
theorem classification_order_and_split_witness :
    hasBeginTx (cleanedQuery qTxExample) = true ∧
    ((runExecuteSql (pureDriver [] [] 0) () qTxExample).text =
       "Transaction completed successfully".data ∧
     (runExecuteSql (pureDriver [] [] 0) () qTxExample).executed =
       executableStmts (cleanedQuery qTxExample)) :=
  ⟨by decide, classification_order_and_split.1 qTxExample [] [] 0 (by decide)⟩

/-- Transaction block containing a whole-line comment. -/
def qTxWithComment : Str :=
  "BEGIN TRANSACTION;\n".data ++ dashDash ++
  " note\nINSERT INTO t VALUES (1);\nCOMMIT;".data

/-- Counterexample for C4: in the transaction path the texts sent to
`cursor.execute` are pieces of the comment-stripped cleaned text, not the
original raw query — the raw query (which still contains its comment) is
never among them. -/
theorem executed_text_not_raw_counterexample :
    (runExecuteSql (pureDriver [] [] 0) () qTxWithComment).executed =
      ["INSERT INTO t VALUES (1)".data] ∧
    ¬ qTxWithComment ∈ (runExecuteSql (pureDriver [] [] 0) () qTxWithComment).executed ∧
    containsSub qTxWithComment dashDash = true ∧
    containsSub "INSERT INTO t VALUES (1)".data dashDash = false :=
  ⟨by rfl, by decide, by decide, by decide⟩

/-- C4 (amended): outside the transaction path the text executed is the
original raw query with comments intact, for every driver and state; in
the transaction path the executed texts are the cleaned-text statements
(comment lines removed, split on semicolons, markers skipped). -/
theorem executed_text_policy :
    (∀ (δ : Type) (d : Driver δ) (init : δ) (q : Str),
       hasBeginTx (cleanedQuery q) = false →
       (runExecuteSql d init q).executed = [q]) ∧
    (∀ (q : Str) (cols : List Str) (rows : List (List Str)) (rc : Int),
       hasBeginTx (cleanedQuery q) = true →
       (runExecuteSql (pureDriver cols rows rc) () q).executed =
         executableStmts (cleanedQuery q)) := by
  constructor
  · intro δ d init q h
    simp only [runExecuteSql, h, Bool.false_eq_true, if_false]
    rcases hx : d.exec q init with ⟨e, msgs⟩ | res
    · dsimp only
      split
      · split <;> rfl
      · rfl
    · dsimp only
      rcases hf : res.messages.find? msgHasPermissionCode with _ | m
      · dsimp only
        split <;> rfl
      · rfl
  · intro q cols rows rc h
    have hrun := runTx_pureDriver cols rows rc (pyStatements (cleanedQuery q)) ⟨(), ()⟩
    simp [runExecuteSql, h, hrun, executableStmts]

/-- Witness for the amended C4 at a plain write query. -/
theorem executed_text_policy_witness :
    hasBeginTx (cleanedQuery "DELETE FROM t WHERE id = 1".data) = false ∧
    (runExecuteSql (pureDriver [] [] 0) () "DELETE FROM t WHERE id = 1".data).executed =
      ["DELETE FROM t WHERE id = 1".data] :=
  ⟨by decide,
   executed_text_policy.1 Unit (pureDriver [] [] 0) () "DELETE FROM t WHERE id = 1".data
     (by decide)⟩

/-- Transaction-path failure raised by the driver on one statement. -/
def eDeadlock : PyExc :=
  ⟨.pyodbcError, "deadlock victim".data, some "deadlock victim".data⟩

/-- Statement the failing driver rejects. -/
def badStmt : Str := "INSERT INTO t VALUES (2)".data

/-- Driver over a list-of-applied-writes state: every statement except
`bad` appends itself to the pending state; `bad` raises `e`. -/
def failingDriver (bad : Str) (e : PyExc) : Driver (List Str) :=
  ⟨fun s st => if s = bad then .error (e, []) else .ok ⟨st ++ [s], [], [], [], 0⟩⟩

/-- Transaction block with a COMMIT between the two writes; the second
write fails. -/
def qTxMidCommit : Str :=
  ("BEGIN TRANSACTION;\nINSERT INTO t VALUES (1);\nCOMMIT;\n" ++
   "INSERT INTO t VALUES (2);\nCOMMIT;").data

/-- Transaction block whose two writes precede the only COMMIT; the second
write fails. -/
def qTxNoMidCommit : Str :=
  "BEGIN TRANSACTION;\nINSERT INTO t VALUES (1);\nINSERT INTO t VALUES (2);\nCOMMIT;".data

/-- Counterexample for C6: when a COMMIT marker precedes the failing
statement, the earlier write is already committed, so after the rollback
and the Transaction-error response the database state is not the initial
one — the write before the failure is still visible. -/
theorem tx_partial_commit_counterexample :
    (runExecuteSql (failingDriver badStmt eDeadlock) [] qTxMidCommit).text =
      "Transaction error: ".data ++ eDeadlock.msg ∧
    (runExecuteSql (failingDriver badStmt eDeadlock) [] qTxMidCommit).final =
      ⟨["INSERT INTO t VALUES (1)".data], ["INSERT INTO t VALUES (1)".data]⟩ ∧
    (⟨["INSERT INTO t VALUES (1)".data], ["INSERT INTO t VALUES (1)".data]⟩ :
        TxState (List Str)) ≠ ⟨[], []⟩ :=
  ⟨by rfl, by rfl, by decide⟩

/-- Helper: while no COMMIT marker has been processed, the transaction
loop never changes the committed state, including on failure. -/
theorem runTx_no_commit_keeps_committed {δ : Type} (d : Driver δ) :
    ∀ (stmts : List Str) (st : TxState δ) (e : PyExc) (st2 : TxState δ) (tr : List Str),
      stmts.all (fun s => !isCommitMarker s) = true →
      runTxStatements d stmts st = .err e st2 tr → st2.committed = st.committed := by
  intro stmts
  induction stmts with
  | nil =>
    intro st e st2 tr _ hr
    simp [runTxStatements] at hr
  | cons s rest ih =>
    intro st e st2 tr hall hr
    rw [List.all_cons] at hall
    have hcs : isCommitMarker s = false := by
      have := (Bool.and_eq_true _ _).mp hall
      simpa using this.1
    have hrest := ((Bool.and_eq_true _ _).mp hall).2
    simp only [runTxStatements] at hr
    by_cases hb : isBeginMarker s = true
    · rw [if_pos hb] at hr
      exact ih st e st2 tr hrest hr
    · rw [if_neg hb, if_neg (by simp [hcs])] at hr
      rcases hx : d.exec s st.pending with ⟨e2, msgs⟩ | res
      · rw [hx] at hr
        dsimp only at hr
        simp only [TxRun.err.injEq] at hr
        obtain ⟨-, h2, -⟩ := hr
        rw [← h2]
      · rw [hx] at hr
        dsimp only at hr
        rcases hr2 : runTxStatements d rest ⟨st.committed, res.state⟩ with
          ⟨st3, tr3⟩ | ⟨e3, st3, tr3⟩
        · rw [hr2] at hr
          simp at hr
        · rw [hr2] at hr
          dsimp only at hr
          simp only [TxRun.err.injEq] at hr
          obtain ⟨-, h2, -⟩ := hr
          have hcom := ih ⟨st.committed, res.state⟩ e3 st3 tr3 hrest hr2
          rw [← h2, hcom]

/-- C6 (amended): when a statement of a transaction block raises a driver
error, the code rolls back and answers with a Transaction-error message;
the visible state reverts to the last committed state — equal to the
initial state whenever no COMMIT marker precedes the failure, but writes
committed by an earlier COMMIT marker inside the block stay visible. -/
theorem tx_failure_rolls_back :
    (∀ (δ : Type) (d : Driver δ) (init : δ) (q : Str) (e : PyExc)
        (st : TxState δ) (tr : List Str),
       hasBeginTx (cleanedQuery q) = true →
       runTxStatements d (pyStatements (cleanedQuery q)) ⟨init, init⟩ = .err e st tr →
       e.kind = .pyodbcError →
       (runExecuteSql d init q).text = "Transaction error: ".data ++ e.msg ∧
       (runExecuteSql d init q).final = ⟨st.committed, st.committed⟩) ∧
    (∀ (δ : Type) (d : Driver δ) (init : δ) (q : Str) (e : PyExc)
        (st : TxState δ) (tr : List Str),
       hasBeginTx (cleanedQuery q) = true →
       (pyStatements (cleanedQuery q)).all (fun s => !isCommitMarker s) = true →
       runTxStatements d (pyStatements (cleanedQuery q)) ⟨init, init⟩ = .err e st tr →
       e.kind = .pyodbcError →
       (runExecuteSql d init q).final = ⟨init, init⟩) := by
  constructor
  · intro δ d init q e st tr hbt hrun hkind
    constructor <;> simp [runExecuteSql, hbt, hrun, hkind, txCommit, txRollback]
  · intro δ d init q e st tr hbt hall hrun hkind
    have hc := runTx_no_commit_keeps_committed d (pyStatements (cleanedQuery q))
      ⟨init, init⟩ e st tr hall hrun
    simp [runExecuteSql, hbt, hrun, hkind, txCommit, txRollback, hc]

/-- Witness for the amended C6 at a concrete failing transaction. -/
theorem tx_failure_rolls_back_witness :
    hasBeginTx (cleanedQuery qTxNoMidCommit) = true ∧
    runTxStatements (failingDriver badStmt eDeadlock)
        (pyStatements (cleanedQuery qTxNoMidCommit)) ⟨[], []⟩ =
      .err eDeadlock ⟨[], ["INSERT INTO t VALUES (1)".data]⟩
        ["INSERT INTO t VALUES (1)".data, "INSERT INTO t VALUES (2)".data] ∧
    eDeadlock.kind = .pyodbcError ∧
    ((runExecuteSql (failingDriver badStmt eDeadlock) [] qTxNoMidCommit).text =
       "Transaction error: ".data ++ eDeadlock.msg ∧
     (runExecuteSql (failingDriver badStmt eDeadlock) [] qTxNoMidCommit).final =
       ⟨(⟨[], ["INSERT INTO t VALUES (1)".data]⟩ : TxState (List Str)).committed,
        (⟨[], ["INSERT INTO t VALUES (1)".data]⟩ : TxState (List Str)).committed⟩) :=
  ⟨by decide, by decide, rfl,
   tx_failure_rolls_back.1 (List Str) (failingDriver badStmt eDeadlock) [] qTxNoMidCommit
     eDeadlock ⟨[], ["INSERT INTO t VALUES (1)".data]⟩
     ["INSERT INTO t VALUES (1)".data, "INSERT INTO t VALUES (2)".data]
     (by decide) (by decide) rfl⟩

/-- C10: for a non-transaction query whose execute succeeds, if a driver
advisory message contains one of the permission code substrings, the text
returned is the Permission-denied message built from the first matching
advisory message, instead of the query result — for every driver, state
and query, including SELECT queries. -/
theorem advisory_permission_code_overrides {δ : Type} (d : Driver δ) (init : δ)
    (q : Str) (res : ExecRes δ) (m : Str)
    (hbt : hasBeginTx (cleanedQuery q) = false)
    (hexec : d.exec q init = .ok res)
    (hfind : res.messages.find? msgHasPermissionCode = some m) :
    (runExecuteSql d init q).text = "Permission denied: ".data ++ m := by
  simp [runExecuteSql, hbt, hexec, hfind]

/-- Advisory message whose longer code 10229 contains the substring 229. -/
def advisoryMsg : Str := "note (10229) low privilege".data

/-- Driver that succeeds and emits one advisory message. -/
def msgDriver : Driver Unit :=
  ⟨fun _ _ => .ok ⟨(), [advisoryMsg], ["name".data], [["alice".data]], -1⟩⟩

/-- Witness for C10 at a SELECT query with an advisory message matching a
permission code only as part of a longer number. -/
theorem advisory_permission_code_overrides_witness :
    hasBeginTx (cleanedQuery "SELECT name FROM users".data) = false ∧
    msgDriver.exec "SELECT name FROM users".data () =
      .ok ⟨(), [advisoryMsg], ["name".data], [["alice".data]], -1⟩ ∧
    [advisoryMsg].find? msgHasPermissionCode = some advisoryMsg ∧
    (runExecuteSql msgDriver () "SELECT name FROM users".data).text =
      "Permission denied: ".data ++ advisoryMsg :=
  ⟨by decide, rfl, by decide,
   advisory_permission_code_overrides msgDriver () "SELECT name FROM users".data
     ⟨(), [advisoryMsg], ["name".data], [["alice".data]], -1⟩ advisoryMsg
     (by decide) rfl (by decide)⟩

/-- Environment with every mandatory variable present. -/
def envFull : Env :=
  ⟨none, none, some "u".data, some "pw".data, some "db".data⟩

/-- Counterexample for C9: a configuration-resolution failure escapes
`list_resources` and `read_resource` as a raised ValueError instead of a
structured payload, and a driver error in `read_resource` escapes as a
raised RuntimeError. -/
theorem resource_ops_exception_escape_counterexample :
    list_resources "SQL Server".data envMissingUser (.ok []) =
      .error ⟨.valueError, "Missing required database configuration".data,
              some "Missing required database configuration".data⟩ ∧
    read_resource "SQL Server".data envMissingUser "mssql://t/data".data
        (fun _ => .ok ([], [])) =
      .error ⟨.valueError, "Missing required database configuration".data,
              some "Missing required database configuration".data⟩ ∧
    read_resource "SQL Server".data envFull "mssql://t/data".data
        (fun _ => .error ⟨.pyodbcError, "table not found".data, some "table not found".data⟩) =
      .error ⟨.runtimeError, "Database error: table not found".data,
              some "Database error: table not found".data⟩ :=
  ⟨rfl, rfl, rfl⟩

/-- C9 (amended): `call_tool` turns every failure — configuration
resolution, exhausted connection retries — into a structured text payload;
but `list_resources` and `read_resource` let configuration failures
propagate as exceptions, `read_resource` re-raises driver errors as
RuntimeError, and `list_resources` maps driver errors to an empty resource
list. -/
theorem error_payload_policy :
    (∀ (δ : Type) (defaultDriver : Str) (env : Env) (connector : Nat → Except PyExc Unit)
        (d : Driver δ) (init : δ) (q : Str) (tablesResult : Except PyExc (List Str))
        (f : ConfigFailure),
       get_db_config defaultDriver env = .error f →
       call_tool defaultDriver env connector d init "execute_sql".data (some q) tablesResult =
         "Error: ".data ++ f.raisedMsg) ∧
    (∀ (δ : Type) (defaultDriver : Str) (env : Env) (connector : Nat → Except PyExc Unit)
        (d : Driver δ) (init : δ) (q : Str) (tablesResult : Except PyExc (List Str))
        (cfgcs : DbConfig × Str) (e : PyExc),
       get_db_config defaultDriver env = .ok cfgcs →
       (retryDefault connector).outcome = .raised e →
       call_tool defaultDriver env connector d init "execute_sql".data (some q) tablesResult =
         "Error: ".data ++ e.msg) ∧
    (∀ (defaultDriver : Str) (env : Env) (tablesResult : Except PyExc (List Str))
        (f : ConfigFailure),
       get_db_config defaultDriver env = .error f →
       list_resources defaultDriver env tablesResult = .error (toValueError f)) ∧
    (∀ (defaultDriver : Str) (env : Env) (uri : Str)
        (tableData : Str → Except PyExc (List Str × List (List Str))) (f : ConfigFailure),
       get_db_config defaultDriver env = .error f →
       read_resource defaultDriver env uri tableData = .error (toValueError f)) ∧
    (∀ (defaultDriver : Str) (env : Env) (cfgcs : DbConfig × Str) (e : PyExc),
       get_db_config defaultDriver env = .ok cfgcs → e.kind = .pyodbcError →
       list_resources defaultDriver env (.error e) = .ok []) ∧
    (∀ (defaultDriver : Str) (env : Env) (uri : Str)
        (tableData : Str → Except PyExc (List Str × List (List Str)))
        (cfgcs : DbConfig × Str) (e : PyExc),
       get_db_config defaultDriver env = .ok cfgcs →
       startsWith uri "mssql://".data = true →
       tableData ((splitOnChar '/' (uri.drop 8)).headD []) = .error e →
       e.kind = .pyodbcError →
       read_resource defaultDriver env uri tableData =
         .error ⟨.runtimeError, "Database error: ".data ++ e.msg,
                 some ("Database error: ".data ++ e.msg)⟩) := by
  have hc : (["execute_sql".data, "list_tables".data].contains "execute_sql".data) = true := by
    decide
  refine ⟨?_, ?_, ?_, ?_, ?_, ?_⟩
  · intro δ defaultDriver env connector d init q tablesResult f hcfg
    simp [call_tool, hc, hcfg]
  · intro δ defaultDriver env connector d init q tablesResult cfgcs e hcfg hout
    simp [call_tool, hc, hcfg, hout]
  · intro defaultDriver env tablesResult f hcfg
    simp [list_resources, hcfg]
  · intro defaultDriver env uri tableData f hcfg
    simp [read_resource, hcfg]
  · intro defaultDriver env cfgcs e hcfg hkind
    simp [list_resources, hcfg, hkind]
  · intro defaultDriver env uri tableData cfgcs e hcfg huri hdata hkind
    simp only [read_resource, hcfg]
    rw [if_neg (by simp [huri])]
    rw [hdata]
    simp [hkind]

/-- Configuration failure that `envMissingUserPw` produces. -/
def cfgFailUserPw : ConfigFailure :=
  ⟨["MSSQL_USER".data, "MSSQL_PASSWORD".data],
   "Missing required database configuration".data⟩

/-- Witness for the amended C9: `call_tool` answers a configuration
failure with a structured Error text. -/
theorem error_payload_policy_witness :
    get_db_config "SQL Server".data envMissingUserPw = .error cfgFailUserPw ∧
    call_tool "SQL Server".data envMissingUserPw (fun _ => .ok ()) (pureDriver [] [] 0) ()
        "execute_sql".data (some "SELECT 1".data) (.ok []) =
      "Error: ".data ++ cfgFailUserPw.raisedMsg :=
  ⟨by rfl,
   error_payload_policy.1 Unit "SQL Server".data envMissingUserPw (fun _ => .ok ())
     (pureDriver [] [] 0) () "SELECT 1".data (.ok []) cfgFailUserPw (by rfl)⟩
